import Mathlib

/-!
Verification of the Murmur frontend (Svelte + TypeScript) against its
natural-language specification.  The definitions below are a shallow
embedding of the TypeScript sources:

* `src/lib/types.ts`   — the wire types of the Tauri boundary
* `src/lib/api.ts`     — the invokable backend commands and `safeInvoke`
* `App.svelte`         — the UI state, event listeners and intent handlers
  (the variant that supports cancellation: the one importing
  `cancelTranscription` and handling `transcription-cancelled`)

Stateful Svelte component code is embedded as explicit state passing over a
`UiState` record; fallible backend calls are embedded as `Except String α`
arguments.  Parts of the core that only exist in the Rust backend (download
manager, error-message construction) are modelled from the spec and marked
as such in their doc comments.
-/

/-- The frontend status type, from `src/lib/types.ts`:
`export type AppStatus = 'idle' | 'recording' | 'processing' | 'cancelling'`. -/
inductive AppStatus
  | idle
  | recording
  | processing
  | cancelling
deriving DecidableEq, Repr

/-- Wire serialization of `AppStatus`: the string literals of the TypeScript
union type. -/
def AppStatus.toWire : AppStatus → String
  | .idle => "idle"
  | .recording => "recording"
  | .processing => "processing"
  | .cancelling => "cancelling"

/-- All values of the `AppStatus` union type, in source order. -/
def appStatusValues : List AppStatus :=
  [.idle, .recording, .processing, .cancelling]

/-- A JSON-like value, used to describe the shapes of the payloads crossing
the Tauri event/command boundary. -/
inductive JsonValue
  | str (s : String)
  | num (n : Int)
  | bool (b : Bool)
  | null
deriving DecidableEq, Repr

/-- `ModelInfo` from `src/lib/types.ts`. -/
structure ModelInfo where
  file_name : String
  label : String
  quality : String
  installed : Bool
  active : Bool
  download_url : Option String
deriving DecidableEq, Repr

/-- `TranscriptionCompletePayload` from `src/lib/types.ts`: the payload of the
`transcription-complete` event. -/
structure TranscriptionCompletePayload where
  id : Int
  text : String
  duration_ms : Int
  model : String
  auto_copied : Bool
deriving DecidableEq, Repr

/-- Field-by-field encoding of `TranscriptionCompletePayload`, in the field
order of `src/lib/types.ts`. -/
def encodeTranscriptionComplete (p : TranscriptionCompletePayload) :
    List (String × JsonValue) :=
  [("id", .num p.id),
   ("text", .str p.text),
   ("duration_ms", .num p.duration_ms),
   ("model", .str p.model),
   ("auto_copied", .bool p.auto_copied)]

/-- `ErrorPayload` from `src/lib/types.ts`: the payload of the
`transcription-error` event. -/
structure ErrorPayload where
  message : String
deriving DecidableEq, Repr

/-- `AudioInputStatus` from `src/lib/types.ts`, as returned by the
`get_audio_input_status` query. -/
structure AudioInputStatus where
  available_inputs : Int
  default_input : Option String
  default_sample_rate : Option Int
  ok : Bool
  message : Option String
deriving DecidableEq, Repr

/-- Field-by-field encoding of `AudioInputStatus`, in the field order of
`src/lib/types.ts`; `null`-able fields encode `none` as `JsonValue.null`. -/
def encodeAudioInputStatus (st : AudioInputStatus) : List (String × JsonValue) :=
  [("available_inputs", .num st.available_inputs),
   ("default_input", match st.default_input with
      | some s => .str s
      | none => .null),
   ("default_sample_rate", match st.default_sample_rate with
      | some n => .num n
      | none => .null),
   ("ok", .bool st.ok),
   ("message", match st.message with
      | some s => .str s
      | none => .null)]

/-- The backend command names invoked by `src/lib/api.ts` (the string passed
to `safeInvoke` by each exported wrapper, in source order). -/
def apiCommands : List String :=
  ["start_recording",
   "stop_recording",
   "toggle_recording",
   "cancel_transcription",
   "get_history",
   "get_app_state",
   "copy_text",
   "delete_transcription",
   "list_models",
   "set_active_model",
   "get_hotkey",
   "set_hotkey",
   "get_auto_copy",
   "set_auto_copy",
   "get_audio_input_status"]

/-- The event names the App component registers listeners for during setup,
in registration order. -/
def registeredEvents : List String :=
  ["recording-started",
   "recording-stopped",
   "transcription-complete",
   "transcription-cancelled",
   "transcription-error",
   "model-download-progress",
   "model-download-complete",
   "hotkey-updated",
   "auto-copy-updated",
   "app-notice"]

/-- The mutable state of the App component that the embedded handlers touch
(the `let` bindings at the top of the component script; fields not read or
written by any embedded handler are omitted). -/
structure UiState where
  status : AppStatus
  resultText : String
  models : List ModelInfo
  activeModel : String
  errorMessage : String
  copiedState : String
  modelBusy : Bool
  downloadPercent : Option Int
  downloadingModel : String
deriving DecidableEq, Repr

/-- The reactive `displayModels` binding:
`models.length > 0 ? models : FALLBACK_MODELS`. -/
def FALLBACK_MODELS : List ModelInfo :=
  [⟨"ggml-large-v3-turbo-q5_0.bin", "large-v3-turbo-q5_0", "best balance", false, false, none⟩,
   ⟨"ggml-large-v3-turbo.bin", "large-v3-turbo", "highest quality (fast)", false, false, none⟩,
   ⟨"ggml-large-v3.bin", "large-v3", "highest quality", false, false, none⟩,
   ⟨"ggml-medium.en.bin", "medium.en", "high quality", false, false, none⟩,
   ⟨"ggml-small.en.bin", "small.en", "better than base", false, false, none⟩,
   ⟨"ggml-base.en.bin", "base.en", "balanced", false, true, none⟩,
   ⟨"ggml-tiny.en.bin", "tiny.en", "fastest", false, false, none⟩]

/-- `displayModels = models.length > 0 ? models : FALLBACK_MODELS`. -/
def displayModels (s : UiState) : List ModelInfo :=
  if s.models.length > 0 then s.models else FALLBACK_MODELS

/-- The reactive `activeModelInfo` binding:
`displayModels.find((model) => model.file_name === activeModel) ?? null`. -/
def activeModelInfo (s : UiState) : Option ModelInfo :=
  (displayModels s).find? (fun m => m.file_name == s.activeModel)

/-- The optional-chained `activeModelInfo?.installed` test (undefined is
falsy in the guard that uses it). -/
def activeModelInstalled (s : UiState) : Bool :=
  match activeModelInfo s with
  | some m => m.installed
  | none => false

/-- The `recording-started` listener: `status = 'recording'; errorMessage = ''`. -/
def handleRecordingStarted (s : UiState) : UiState :=
  { s with status := .recording, errorMessage := "" }

/-- The `recording-stopped` listener: `status = 'processing'`. -/
def handleRecordingStopped (s : UiState) : UiState :=
  { s with status := .processing }

/-- The `transcription-complete` listener: sets `status = 'idle'`, copies the
payload text into `resultText`, and shows the copied tag only when the
payload's `auto_copied` flag is set. -/
def handleTranscriptionComplete (s : UiState) (p : TranscriptionCompletePayload) : UiState :=
  { s with
      status := .idle
      resultText := p.text
      copiedState := if p.auto_copied then "Copied" else "" }

/-- The `transcription-cancelled` listener: `status = 'idle'` and nothing
else — in particular it does not touch `errorMessage`. -/
def handleTranscriptionCancelled (s : UiState) : UiState :=
  { s with status := .idle }

/-- The `transcription-error` listener:
`status = 'idle'; errorMessage = event.payload.message`. -/
def handleTranscriptionError (s : UiState) (p : ErrorPayload) : UiState :=
  { s with status := .idle, errorMessage := p.message }

/-- The `model-download-progress` listener. -/
def handleDownloadProgress (s : UiState) (file : String) (percent : Int) : UiState :=
  { s with
      modelBusy := true
      downloadingModel := file
      downloadPercent := some percent }

/-- The `model-download-complete` listener (before its asynchronous
`refreshModels` call and the delayed reset of the progress display). -/
def handleDownloadComplete (s : UiState) (file : String) : UiState :=
  { s with
      modelBusy := false
      downloadingModel := file
      downloadPercent := some 100 }

/-- `onCancelTranscription`: returns immediately unless the status is
`processing` or `cancelling`; otherwise invokes the `cancel_transcription`
command, whose outcome is passed in as `r`, and moves the status to
`cancelling` only when the backend confirmed the request with `true`.  A
thrown backend error is caught and surfaced as `errorMessage`. -/
def onCancelTranscription (s : UiState) (r : Except String Bool) : UiState :=
  if s.status ≠ .processing ∧ s.status ≠ .cancelling then s
  else
    match r with
    | .ok true => { s with status := .cancelling }
    | .ok false => s
    | .error e => { s with errorMessage := "Cancel failed: " ++ e }

/-- `refreshModels`: queries `listModels` (outcome passed in as `r`); on a
non-empty reply adopts it, on an empty reply substitutes `FALLBACK_MODELS`,
then syncs `activeModel` to the catalog's active entry; on a thrown error
substitutes `FALLBACK_MODELS`, resets `activeModel` to `ggml-base.en.bin`
and records an error message. -/
def refreshModels (s : UiState) (r : Except String (List ModelInfo)) : UiState :=
  match r with
  | .ok remote =>
      let newModels := if remote.length > 0 then remote else FALLBACK_MODELS
      let s1 := { s with models := newModels }
      match newModels.find? (fun m => m.active) with
      | some m => { s1 with activeModel := m.file_name }
      | none => s1
  | .error e =>
      { s with
          models := FALLBACK_MODELS
          activeModel := "ggml-base.en.bin"
          errorMessage := "Model list failed: " ++ e }

/-- The guard of `onModelSelect`: the selection is acted upon (that is,
`set_active_model` is invoked) unless the component is already busy with a
model operation, or the selected file is already the active model AND that
model is installed.  In particular a not-installed selection is never
rejected for being not installed. -/
def modelSelectProceeds (s : UiState) (fileName : String) : Bool :=
  if s.modelBusy then false
  else if fileName == s.activeModel && activeModelInstalled s then false
  else true

/-- The marker substring `safeInvoke` looks for in a rejection's string form. -/
def tauriMarker : String := "__TAURI_INTERNALS__"

/-- Helper for the substring check: does `hay` start with `needle`? -/
def charListStartsWith : List Char → List Char → Bool
  | [], _ => true
  | _ :: _, [] => false
  | n :: ns, h :: hs => n == h && charListStartsWith ns hs

/-- Helper for the substring check: does `needle` occur anywhere in `hay`? -/
def charListContains (needle : List Char) : List Char → Bool
  | [] => needle.isEmpty
  | h :: hs => charListStartsWith needle (h :: hs) || charListContains needle hs

/-- JavaScript `String.prototype.includes`: `hay` contains `needle` as a
contiguous substring. -/
def stringIncludes (hay needle : String) : Bool :=
  charListContains needle.data hay.data

/-- The fixed message thrown by `safeInvoke` when the Tauri bridge is absent. -/
def bridgeMissingError : String :=
  "Tauri bridge unavailable. Use the Murmur app window from the tray (not a standalone browser tab)."

/-- `safeInvoke` from `src/lib/api.ts`: a successful invocation is returned
unchanged; a rejection whose string form contains `__TAURI_INTERNALS__` is
replaced by the fixed bridge-missing error; any other rejection is rethrown
unchanged. -/
def safeInvoke {α : Type} (result : Except String α) : Except String α :=
  match result with
  | .ok v => .ok v
  | .error e =>
      if stringIncludes e tauriMarker then .error bridgeMissingError
      else .error e

/-- Modelled from the spec: the core's error-propagation policy (§7).  Device
and model errors surface through the `transcription-error` event as a
human-readable message, never as raw lower-level error text.  The Rust
backend that builds these messages is not among the frontend sources, so the
event payload is modelled as carrying exactly the human-readable string. -/
def emitTranscriptionError (humanMessage : String) : ErrorPayload :=
  ⟨humanMessage⟩

/-- Modelled from the spec: the Download Manager's progress stream (§4.6).
`ensure_model_installed` reports `{bytes_downloaded, total_bytes}` progress,
surfaced to the frontend as `percent` values; each checkpoint's percent is
`bytes * 100 / total` in integer arithmetic. -/
def progressPercents (total : Nat) (byteCheckpoints : List Nat) : List Nat :=
  byteCheckpoints.map (fun b => b * 100 / total)

/-- Modelled from the spec: the installed-models directory (§4.6, §6); a
model is `installed` iff its file is present in the directory. -/
structure ModelsDirState where
  installedFiles : List String
deriving DecidableEq, Repr

/-- A model's derived `installed` flag: presence of its file. -/
def isInstalled (d : ModelsDirState) (file : String) : Bool :=
  d.installedFiles.contains file

/-- Modelled from the spec: a successful download ends with an atomic rename
of the verified artifact into the installed-models directory (§4.6), after
which the file is present. -/
def finalizeDownload (d : ModelsDirState) (file : String) : ModelsDirState :=
  ⟨file :: d.installedFiles⟩

/-- Modelled from the spec: the terminal outcome of one Session (§3, §4.1).
The Rust core that runs Sessions is not among the frontend sources; per the
spec a Session is destroyed on its terminal transition — completing with a
`TranscriptResult`, failing with an error, or being cancelled. -/
inductive SessionOutcome
  | completed (result : TranscriptionCompletePayload)
  | cancelled
  | failed (err : ErrorPayload)
deriving DecidableEq, Repr

/-- Modelled from the spec: the `TranscriptResult`s one Session hands to the
sink (§3, "Produced once per completed Session"): a completed Session yields
exactly its one result; a cancelled or failed Session yields none. -/
def sessionResults : SessionOutcome → List TranscriptionCompletePayload
  | .completed r => [r]
  | .cancelled => []
  | .failed _ => []

/-- Helper: `getLast?` commutes with `map` on lists of naturals. -/
theorem getLast?_map_nat (f : Nat → Nat) (l : List Nat) :
    (l.map f).getLast? = l.getLast?.map f := by
  induction l with
  | nil => rfl
  | cons a t ih =>
      cases t with
      | nil => rfl
      | cons b t' => simpa using ih

/-- C1 counterexample: the claim says `Result` and `Error` are observable
values of the queryable status type; in `src/lib/types.ts` the `AppStatus`
union has no such values. -/
theorem status_values_counterexample :
    ((appStatusValues.map AppStatus.toWire).contains "result" = false) ∧
    ((appStatusValues.map AppStatus.toWire).contains "error" = false) := by
  decide

/-- Claim C1 (amended): the Session status observable at the UI boundary
ranges over exactly `idle`, `recording`, `processing`, `cancelling`; results
and errors are delivered as events while the status returns to `idle`, so
neither `result` nor `error` is a value of the status type. -/
theorem status_values_range (s : AppStatus) :
    s ∈ appStatusValues ∧
    s.toWire ∈ ["idle", "recording", "processing", "cancelling"] ∧
    ((s.toWire == "result") = false) ∧
    ((s.toWire == "error") = false) := by
  cases s <;> exact (by decide)

/-- C2 counterexample: the claim says installing a model is requestable as
its own `ensure_model_installed` intent; `src/lib/api.ts` exposes no such
command. -/
theorem ensure_installed_counterexample :
    apiCommands.contains "ensure_model_installed" = false := by
  decide

/-- Claim C2 (amended): the start, stop, cancel and switch-active-model
intents each have a corresponding invokable command at the frontend boundary
(`start_recording`, `stop_recording`, `cancel_transcription`,
`set_active_model`), but there is no dedicated `ensure_model_installed`
command — installation of a missing model is triggered implicitly by
`set_active_model`. -/
theorem intent_commands :
    apiCommands.contains "start_recording" = true ∧
    apiCommands.contains "stop_recording" = true ∧
    apiCommands.contains "cancel_transcription" = true ∧
    apiCommands.contains "set_active_model" = true ∧
    apiCommands.contains "ensure_model_installed" = false := by
  decide

/-- C3 counterexample: the claim says the transcription-complete payload has
exactly the fields `text`, `duration_ms`, `model_label`, `auto_copied`; the
payload in `src/lib/types.ts` has no `model_label` field and does have an
`id` field. -/
theorem transcript_payload_counterexample :
    (((encodeTranscriptionComplete ⟨1, "hello", 1200, "base.en", true⟩).map
        Prod.fst).contains "model_label" = false) ∧
    (((encodeTranscriptionComplete ⟨1, "hello", 1200, "base.en", true⟩).map
        Prod.fst).contains "id" = true) := by
  decide

/-- Claim C3 (amended): every completed Session produces exactly one
`TranscriptResult` (modelled from the spec, the producing core being absent
from the frontend sources: a completed Session yields exactly its one
result, and no Session outcome ever yields more than one), delivered in a
`transcription-complete` payload whose fields are exactly `id`, `text`,
`duration_ms`, `model` and `auto_copied` (a boolean) — the model label
travels in the field named `model`, not `model_label`, and the payload
additionally carries the history row `id`; the listener consumes exactly
this shape, surfacing `text` and returning the status to idle. -/
theorem transcript_payload_shape (p : TranscriptionCompletePayload) (s : UiState) :
    sessionResults (SessionOutcome.completed p) = [p] ∧
    (∀ o : SessionOutcome, (sessionResults o).length ≤ 1) ∧
    (encodeTranscriptionComplete p).map Prod.fst =
      ["id", "text", "duration_ms", "model", "auto_copied"] ∧
    (encodeTranscriptionComplete p).lookup "auto_copied" =
      some (JsonValue.bool p.auto_copied) ∧
    (handleTranscriptionComplete s p).status = AppStatus.idle ∧
    (handleTranscriptionComplete s p).resultText = p.text :=
  ⟨rfl, fun o => by cases o <;> simp [sessionResults], rfl, rfl, rfl, rfl⟩

/-- Claim C4: cancellation is never reported as an error — the dedicated
`transcription-cancelled` listener (a signal distinct from
`transcription-error`) returns the observable status to idle and leaves the
error message untouched. -/
theorem cancelled_terminates_idle (s : UiState) :
    (handleTranscriptionCancelled s).status = AppStatus.idle ∧
    (handleTranscriptionCancelled s).errorMessage = s.errorMessage ∧
    registeredEvents.contains "transcription-cancelled" = true ∧
    ((("transcription-cancelled" : String) == "transcription-error") = false) :=
  ⟨rfl, rfl, by decide, by decide⟩

/-- Claim C5: a cancel intent is a no-op (state returned unchanged, nothing
queued) unless the status is `processing` or `cancelling`; from `processing`
a backend-confirmed cancel moves the status to `cancelling`, and from
`cancelling` the status stays `cancelling` whatever the backend replies. -/
theorem cancel_requires_processing (s : UiState) (r : Except String Bool) :
    (s.status ≠ AppStatus.processing → s.status ≠ AppStatus.cancelling →
      onCancelTranscription s r = s) ∧
    (s.status = AppStatus.processing →
      (onCancelTranscription s (Except.ok true)).status = AppStatus.cancelling) ∧
    (s.status = AppStatus.cancelling →
      (onCancelTranscription s r).status = AppStatus.cancelling) := by
  refine ⟨fun h1 h2 => ?_, fun h => ?_, fun h => ?_⟩
  · unfold onCancelTranscription
    rw [if_pos ⟨h1, h2⟩]
  · unfold onCancelTranscription
    rw [if_neg (by simp [h])]
  · unfold onCancelTranscription
    rw [if_neg (by simp [h])]
    cases r with
    | ok b => cases b <;> simp [h]
    | error e => simp [h]

/-- Witness for C5 at concrete states: an idle-state cancel leaves the state
unchanged; a processing-state confirmed cancel lands in `cancelling`; a
cancelling-state cancel stays in `cancelling`. -/
theorem cancel_requires_processing_witness :
    onCancelTranscription ⟨AppStatus.idle, "", [], "", "", "", false, none, ""⟩
        (Except.ok true) =
      ⟨AppStatus.idle, "", [], "", "", "", false, none, ""⟩ ∧
    (onCancelTranscription ⟨AppStatus.processing, "", [], "", "", "", false, none, ""⟩
        (Except.ok true)).status = AppStatus.cancelling ∧
    (onCancelTranscription ⟨AppStatus.cancelling, "", [], "", "", "", false, none, ""⟩
        (Except.ok false)).status = AppStatus.cancelling :=
  ⟨(cancel_requires_processing ⟨AppStatus.idle, "", [], "", "", "", false, none, ""⟩
      (Except.ok true)).1 (by decide) (by decide),
   (cancel_requires_processing ⟨AppStatus.processing, "", [], "", "", "", false, none, ""⟩
      (Except.ok true)).2.1 rfl,
   (cancel_requires_processing ⟨AppStatus.cancelling, "", [], "", "", "", false, none, ""⟩
      (Except.ok false)).2.2 rfl⟩

/-- Claim C6: a `transcription-error` event surfaces exactly the payload's
human-readable message (the modelled emission carries only that string, never
a raw lower-level error object) and automatically returns the observable
status to idle, leaving the system ready for an immediate retry. -/
theorem error_event_recovery (s : UiState) (msg : String) :
    (handleTranscriptionError s (emitTranscriptionError msg)).status =
      AppStatus.idle ∧
    (handleTranscriptionError s (emitTranscriptionError msg)).errorMessage = msg ∧
    registeredEvents.contains "transcription-error" = true :=
  ⟨rfl, rfl, by decide⟩

/-- Claim C7: selecting a not-installed model is not rejected (the
`onModelSelect` guard lets it proceed to `set_active_model`); the modelled
ensure-installed flow reports percents that rise monotonically to exactly 100
when the byte checkpoints rise to the total; the `model-download-complete`
listener pins the displayed percent at 100 for that file; and after the
download is finalized the model's derived installed flag is true. -/
theorem ensure_install_flow (s : UiState) (fileName : String) (total : Nat)
    (bytes : List Nat) (d : ModelsDirState)
    (hbusy : s.modelBusy = false)
    (hni : ∀ m ∈ displayModels s, m.file_name = fileName → m.installed = false)
    (htotal : 0 < total)
    (hmono : List.Chain' (· ≤ ·) bytes)
    (hlast : bytes.getLast? = some total) :
    modelSelectProceeds s fileName = true ∧
    List.Chain' (· ≤ ·) (progressPercents total bytes) ∧
    (progressPercents total bytes).getLast? = some 100 ∧
    (handleDownloadComplete s fileName).downloadPercent = some 100 ∧
    (handleDownloadComplete s fileName).downloadingModel = fileName ∧
    isInstalled (finalizeDownload d fileName) fileName = true := by
  have hguard : (fileName == s.activeModel && activeModelInstalled s) = false := by
    cases hfa : fileName == s.activeModel with
    | false => simp
    | true =>
        simp only [Bool.true_and]
        unfold activeModelInstalled activeModelInfo
        cases hfind : (displayModels s).find? (fun m => m.file_name == s.activeModel) with
        | none => rfl
        | some m =>
            have hmem := List.mem_of_find?_eq_some hfind
            have hpred := List.find?_some hfind
            have hname : m.file_name = fileName :=
              (eq_of_beq hpred).trans (eq_of_beq hfa).symm
            exact hni m hmem hname
  refine ⟨?_, ?_, ?_, rfl, rfl, by simp [isInstalled, finalizeDownload]⟩
  · simp [modelSelectProceeds, hbusy, hguard]
  · unfold progressPercents
    rw [List.chain'_map]
    exact hmono.imp fun a b hab => Nat.div_le_div_right (Nat.mul_le_mul_right 100 hab)
  · unfold progressPercents
    rw [getLast?_map_nat, hlast]
    simp [Nat.mul_div_cancel_left 100 htotal]

/-- Witness for C7: with an idle state showing the fallback catalog (none of
which is installed), selecting `ggml-small.en.bin` proceeds, and a download
with checkpoints 100 then 400 of 400 bytes ends its percent stream at 100. -/
theorem ensure_install_flow_witness :
    modelSelectProceeds
        ⟨AppStatus.idle, "", [], "ggml-base.en.bin", "", "", false, none, ""⟩
        "ggml-small.en.bin" = true ∧
    (progressPercents 400 [100, 400]).getLast? = some 100 ∧
    isInstalled (finalizeDownload ⟨[]⟩ "ggml-small.en.bin") "ggml-small.en.bin" = true :=
  ⟨(ensure_install_flow
      ⟨AppStatus.idle, "", [], "ggml-base.en.bin", "", "", false, none, ""⟩
      "ggml-small.en.bin" 400 [100, 400] ⟨[]⟩ rfl (by decide) (by decide)
      (by simp [List.chain'_cons]) rfl).1,
   (ensure_install_flow
      ⟨AppStatus.idle, "", [], "ggml-base.en.bin", "", "", false, none, ""⟩
      "ggml-small.en.bin" 400 [100, 400] ⟨[]⟩ rfl (by decide) (by decide)
      (by simp [List.chain'_cons]) rfl).2.2.1,
   (ensure_install_flow
      ⟨AppStatus.idle, "", [], "ggml-base.en.bin", "", "", false, none, ""⟩
      "ggml-small.en.bin" 400 [100, 400] ⟨[]⟩ rfl (by decide) (by decide)
      (by simp [List.chain'_cons]) rfl).2.2.2.2.2⟩

/-- Claim C8: the audio input availability record has exactly the five fields
`available_inputs`, `default_input`, `default_sample_rate`, `ok`, `message`;
`available_inputs` and `ok` are always present with non-null values, the
other three may be null; and the record is served by the
`get_audio_input_status` command. -/
theorem audio_input_status_shape (st : AudioInputStatus) :
    (encodeAudioInputStatus st).map Prod.fst =
      ["available_inputs", "default_input", "default_sample_rate", "ok", "message"] ∧
    (encodeAudioInputStatus st).lookup "available_inputs" =
      some (JsonValue.num st.available_inputs) ∧
    (encodeAudioInputStatus st).lookup "ok" = some (JsonValue.bool st.ok) ∧
    (∃ st0 : AudioInputStatus,
      (encodeAudioInputStatus st0).lookup "default_input" = some JsonValue.null ∧
      (encodeAudioInputStatus st0).lookup "default_sample_rate" = some JsonValue.null ∧
      (encodeAudioInputStatus st0).lookup "message" = some JsonValue.null) ∧
    apiCommands.contains "get_audio_input_status" = true :=
  ⟨rfl, rfl, rfl, ⟨⟨0, none, none, true, none⟩, rfl, rfl, rfl⟩, by decide⟩

/-- Claim C9: `safeInvoke` returns a successful invocation unchanged,
replaces a rejection whose string form contains `__TAURI_INTERNALS__` by an
error with the fixed bridge-missing message, and rethrows any other
rejection unchanged. -/
theorem safeInvoke_spec {α : Type} (v : α) (e : String) :
    safeInvoke (Except.ok v) = Except.ok v ∧
    (stringIncludes e tauriMarker = true →
      safeInvoke (Except.error e : Except String α) =
        Except.error bridgeMissingError) ∧
    (stringIncludes e tauriMarker = false →
      safeInvoke (Except.error e : Except String α) = Except.error e) := by
  refine ⟨rfl, fun h => ?_, fun h => ?_⟩
  · simp [safeInvoke, h]
  · simp [safeInvoke, h]

/-- Witness for C9: a bridge-missing rejection is rewritten to the fixed
message, an unrelated rejection passes through, and a success is returned
unchanged. -/
theorem safeInvoke_spec_witness :
    safeInvoke
        (Except.error "ReferenceError: window.__TAURI_INTERNALS__ is undefined" :
          Except String Nat) =
      Except.error bridgeMissingError ∧
    safeInvoke (Except.error "device busy" : Except String Nat) =
      Except.error "device busy" ∧
    safeInvoke (Except.ok 7 : Except String Nat) = Except.ok 7 :=
  ⟨(safeInvoke_spec 7
      "ReferenceError: window.__TAURI_INTERNALS__ is undefined").2.1 (by decide),
   (safeInvoke_spec 7 "device busy").2.2 (by decide),
   (safeInvoke_spec (7 : Nat) "device busy").1⟩

/-- Claim C10: the displayed model list after a refresh is never empty — a
thrown `listModels` substitutes the seven-entry fallback catalog and resets
the active model to `ggml-base.en.bin`, and an empty reply substitutes the
fallback catalog as well. -/
theorem display_models_nonempty (s : UiState) (e : String)
    (r : Except String (List ModelInfo)) :
    0 < (displayModels (refreshModels s r)).length ∧
    FALLBACK_MODELS.length = 7 ∧
    (refreshModels s (Except.error e)).models = FALLBACK_MODELS ∧
    (refreshModels s (Except.error e)).activeModel = "ggml-base.en.bin" ∧
    (refreshModels s (Except.ok [])).models = FALLBACK_MODELS := by
  refine ⟨?_, by decide, rfl, rfl, rfl⟩
  unfold displayModels
  split
  · assumption
  · decide
